import Mathlib

/-!
Verification development for the pysfizz binding layer.

The repository consists of two C++ source files built on nanobind around the
external sfizz engine:

  - src/pysfizz/bindings.cpp : class Parser (load/query interface only)
  - src/unnamed/part_000     : class Synth  (full synthesis facade)

We shallowly embed both classes.  C++ int is modelled as Int (width bounds are
added as hypotheses where a conversion to size_t matters), float fields as
Real, std::vector<float> as List Real, and a nanobind exception as a value of
PyError.  Methods that mutate the object are embedded as functions
returning `Option PyError × Synth` (the thrown exception, if any, together
with the object state visible to the caller afterwards); const methods that
can throw return `Except PyError result`.

The sfizz engine itself (sfz::Sfizz / sfz::Synth) is an external dependency,
not part of this repository; the binding forwards calls to it.  We model the
engine-visible effects the bindings produce: a queue of forwarded MIDI
events, the forwarded configuration values, and the two-slot quality
configuration documented by the sfizz API.  The audio content produced by the
engine render call is abstracted as an Engine record that fills the stereo
span handed to it.
-/

namespace Pysfizz

/-- Exceptions raised by the binding layer.  nanobind value_error raises a
Python ValueError (the InvalidArgument category of the spec) and
nanobind index_error raises a Python IndexError (the OutOfRange category). -/
inductive PyError where
  | valueError
  | indexError
  deriving DecidableEq, Repr

/-- C++ standard-library exceptions reachable from the binding outside the
nanobind error types: std::length_error, thrown by vector resize when the
requested element count exceeds max_size(). -/
inductive CppError where
  | lengthError
  deriving DecidableEq, Repr

/-- sfizz Range with accessors getStart and getEnd; keyRange and loopRange are
integer ranges, velocityRange holds floats. -/
structure SfzRange (α : Type) where
  getStart : α
  getEnd : α

/-- sfizz Range::containsWithEnd(v): getStart <= v <= getEnd (inclusive at
both ends, in contrast to contains which excludes the end). -/
def SfzRange.containsWithEnd (r : SfzRange Int) (v : Int) : Bool :=
  decide (r.getStart ≤ v ∧ v ≤ r.getEnd)

/-- sfizz LoopMode enumeration (Opcode.cpp / Defaults.h). -/
inductive LoopMode where
  | no_loop
  | one_shot
  | loop_continuous
  | loop_sustain
  deriving DecidableEq, Repr

/-- sfizz Trigger enumeration (Defaults.h). -/
inductive Trigger where
  | attack
  | release
  | release_key
  | first
  | legato
  deriving DecidableEq, Repr

/-- The fields of sfz::Region that the binding layer reads.  Regions are
produced by the external parser at load time and are immutable afterwards.
baseGain models the value of the engine computation region->getBaseGain(). -/
structure Region where
  id : Nat
  sampleId : String
  keyRange : SfzRange Int
  velocityRange : SfzRange Real
  pitchKeycenter : Int
  pitchKeytrack : Real
  pitchRandom : Real
  pitchVeltrack : Real
  transpose : Real
  pitch : Real
  checkSustain : Bool
  sustainCC : Int
  loopMode : Option LoopMode
  trigger : Trigger
  offset : Int
  sampleEnd : Int
  sampleCount : Option Int
  loopRange : SfzRange Int
  loopCount : Option Int
  volume : Real
  amplitude : Real
  baseGain : Real
  pan : Real
  width : Real
  position : Real

/-- String produced for the loop_mode entry of a region-data snapshot.
Both getRegionData implementations contain this switch verbatim: a missing
loopMode opcode reports the default no_loop. -/
def loopModeStr (lm : Option LoopMode) : String :=
  match lm with
  | some LoopMode.no_loop => "no_loop"
  | some LoopMode.one_shot => "one_shot"
  | some LoopMode.loop_continuous => "loop_continuous"
  | some LoopMode.loop_sustain => "loop_sustain"
  | none => "no_loop"

/-- String produced for the trigger entry of a region-data snapshot. -/
def triggerStr (t : Trigger) : String :=
  match t with
  | Trigger.attack => "attack"
  | Trigger.release => "release"
  | Trigger.release_key => "release_key"
  | Trigger.first => "first"
  | Trigger.legato => "legato"

/-- The dictionary built by Parser::getRegionData in bindings.cpp, embedded as
a record with one field per map key (the key end is spelled end_). -/
structure ParserRegionData where
  id : Nat
  sample_id : String
  lokey : Int
  hikey : Int
  key : Int
  lovel : Real
  hivel : Real
  pitch_keycenter : Int
  pitch_keytrack : Real
  pitch_random : Real
  pitch_veltrack : Real
  transpose : Real
  tune : Real
  check_sustain : Bool
  sustain_cc : Int
  loop_mode : String
  trigger : String

/-- The dictionary built by Synth::getRegionData in part_000: the same fields
as the Parser snapshot plus playback, amplitude and effects entries. -/
structure SynthRegionData where
  id : Nat
  sample_id : String
  lokey : Int
  hikey : Int
  key : Int
  lovel : Real
  hivel : Real
  pitch_keycenter : Int
  pitch_keytrack : Real
  pitch_random : Real
  pitch_veltrack : Real
  transpose : Real
  tune : Real
  check_sustain : Bool
  sustain_cc : Int
  loop_mode : String
  trigger : String
  offset : Int
  end_ : Int
  count : Option Int
  loop_start : Int
  loop_end : Int
  loop_count : Option Int
  volume : Real
  amplitude : Real
  gain : Real
  pan : Real
  width : Real
  position : Real

/-- Field-by-field construction of the Parser snapshot from a region view,
following bindings.cpp lines 57-191. -/
def parserRegionSnapshot (r : Region) : ParserRegionData :=
  { id := r.id
    sample_id := r.sampleId
    lokey := r.keyRange.getStart
    hikey := r.keyRange.getEnd
    key := r.pitchKeycenter
    lovel := r.velocityRange.getStart
    hivel := r.velocityRange.getEnd
    pitch_keycenter := r.pitchKeycenter
    pitch_keytrack := r.pitchKeytrack
    pitch_random := r.pitchRandom
    pitch_veltrack := r.pitchVeltrack
    transpose := r.transpose
    tune := r.pitch
    check_sustain := r.checkSustain
    sustain_cc := r.sustainCC
    loop_mode := loopModeStr r.loopMode
    trigger := triggerStr r.trigger }

/-- Field-by-field construction of the Synth snapshot from a region view,
following part_000 lines 73-292. -/
def synthRegionSnapshot (r : Region) : SynthRegionData :=
  { id := r.id
    sample_id := r.sampleId
    lokey := r.keyRange.getStart
    hikey := r.keyRange.getEnd
    key := r.pitchKeycenter
    lovel := r.velocityRange.getStart
    hivel := r.velocityRange.getEnd
    pitch_keycenter := r.pitchKeycenter
    pitch_keytrack := r.pitchKeytrack
    pitch_random := r.pitchRandom
    pitch_veltrack := r.pitchVeltrack
    transpose := r.transpose
    tune := r.pitch
    check_sustain := r.checkSustain
    sustain_cc := r.sustainCC
    loop_mode := loopModeStr r.loopMode
    trigger := triggerStr r.trigger
    offset := r.offset
    end_ := r.sampleEnd
    count := r.sampleCount
    loop_start := r.loopRange.getStart
    loop_end := r.loopRange.getEnd
    loop_count := r.loopCount
    volume := r.volume
    amplitude := r.amplitude
    gain := r.baseGain
    pan := r.pan
    width := r.width
    position := r.position }

/-- The loop body shared verbatim by Parser::getRegionsForNote and
Synth::getRegionsForNote: scan region indices 0 .. numRegions-1 in order and
keep those whose region view exists and whose keyRange contains the note
inclusive at both ends.  A missing region view (null getRegionView result)
is skipped, exactly as the `region &&` test does. -/
def collectRegionsForNote (regions : List Region) (midiNote : Int) : List Nat :=
  (List.range regions.length).filter fun i =>
    match regions.get? i with
    | some r => r.keyRange.containsWithEnd midiNote
    | none => false

/-- The Parser class of bindings.cpp: a wrapper around an sfz::Sfizz engine.
handleOk models whether synth_.handle() returns a non-null pointer (the code
guards every query with this check); regions models the engine-held region
list populated by loadSfzFile. -/
structure Parser where
  handleOk : Bool
  regions : List Region

/-- Parser::getNumRegions, forwarding to the engine region count. -/
def Parser.getNumRegions (p : Parser) : Int :=
  (p.regions.length : Int)

/-- Parser::getRegionData (bindings.cpp lines 30-201): null-handle check
first (value_error), then bounds check (index_error), then null region view
check (value_error), then the snapshot. -/
def Parser.getRegionData (p : Parser) (regionIndex : Int) :
    Except PyError ParserRegionData :=
  if p.handleOk = false then Except.error PyError.valueError
  else if regionIndex < 0 ∨ regionIndex ≥ (p.regions.length : Int) then
    Except.error PyError.indexError
  else
    match p.regions.get? regionIndex.toNat with
    | some r => Except.ok (parserRegionSnapshot r)
    | none => Except.error PyError.valueError

/-- Parser::getRegionsForNote (bindings.cpp lines 204-228): null-handle check
first (value_error), then note range check (value_error), then the ordered
scan over all regions. -/
def Parser.getRegionsForNote (p : Parser) (midiNote : Int) :
    Except PyError (List Nat) :=
  if p.handleOk = false then Except.error PyError.valueError
  else if midiNote < 0 ∨ midiNote > 127 then Except.error PyError.valueError
  else Except.ok (collectRegionsForNote p.regions midiNote)

/-- C++ conversion from int to size_t (64-bit unsigned): value modulo 2^64.
The binding passes int block sizes to std::vector::resize and casts
blockSize_ to size_t for the AudioSpan, so a negative int becomes a huge
unsigned count here. -/
def intToSizeT (v : Int) : Nat :=
  (v % (2 : Int) ^ 64).toNat

/-- std::vector<float>::max_size() of the target platform (libstdc++ on a
64-bit machine: PTRDIFF_MAX / sizeof(float) = 2^61 - 1).  Only the bounds
2^31 <= vectorMaxSize < 2^64 - 2^31 are used below, and every conforming
64-bit implementation satisfies them, so resize succeeds for every
nonnegative int count and throws for every negative int converted to
size_t. -/
def vectorMaxSize : Nat :=
  2 ^ 61 - 1

/-- The contents std::vector<float>::resize(n) produces when it succeeds:
the first n existing elements, padded with zero-initialized elements when
growing. -/
def vecResizeContent (v : List Real) (n : Nat) : List Real :=
  v.take n ++ List.replicate (n - v.length) 0

/-- std::vector<float>::resize(n): when n exceeds max_size() the call
deterministically throws std::length_error and the vector is unchanged;
otherwise it succeeds with the resized contents. -/
def vecResize (v : List Real) (n : Nat) : Except CppError (List Real) :=
  if vectorMaxSize < n then Except.error CppError.lengthError
  else Except.ok (vecResizeContent v n)

/-- One MIDI-like event as forwarded to the engine by the binding: the
arguments of the sfz::Synth call, delay included and unmodified. -/
inductive EngineEvent where
  | noteOn (delay noteNumber velocity : Int)
  | noteOff (delay noteNumber velocity : Int)
  | cc (delay ccNumber value : Int)
  | pitchWheel (delay pitch : Int)
  deriving DecidableEq, Repr

/-- sfz::Synth::ProcessMode selector used by the quality setters. -/
inductive ProcessMode where
  | ProcessLive
  | ProcessFreewheeling
  deriving DecidableEq, Repr

/-- The external engine render call: sfz::Synth::renderBlock writes exactly
the samples of the AudioSpan it is handed (one value per span slot, per
channel) and cannot change the span length.  The audio content is opaque to
the binding, so it is a parameter here, constrained only to fill the span. -/
structure Engine where
  renderLeft : Nat → List Real
  renderRight : Nat → List Real
  renderLeft_length : ∀ n, (renderLeft n).length = n
  renderRight_length : ∀ n, (renderRight n).length = n

/-- An engine that renders silence, used to instantiate theorems on
concrete inputs. -/
def zeroEngine : Engine :=
  { renderLeft := fun n => List.replicate n 0
    renderRight := fun n => List.replicate n 0
    renderLeft_length := fun n => List.length_replicate n 0
    renderRight_length := fun n => List.length_replicate n 0 }

/-- The Synth class of part_000.  The private members sampleRate_,
blockSize_, leftBuffer_ and rightBuffer_ are embedded directly; the
engine-side state the binding manipulates through synth_ / synth_handle_ is
embedded as: the region list, the queue of forwarded MIDI events, the last
forwarded engine sample rate and samples-per-block, the voice-pool size, and
the SynthConfig fields (freeWheeling flag and the two-slot sample and
oscillator quality settings, one slot per process mode). -/
structure Synth where
  regions : List Region
  engineQueue : List EngineEvent
  engineSampleRate : Int
  engineSamplesPerBlock : Int
  numVoices : Int
  freeWheeling : Bool
  liveSampleQuality : Int
  freewheelingSampleQuality : Int
  liveOscillatorQuality : Int
  freewheelingOscillatorQuality : Int
  leftBuffer_ : List Real
  rightBuffer_ : List Real
  sampleRate_ : Int
  blockSize_ : Int

/-- The Synth constructor (part_000 lines 29-45), default arguments 48000 and
1024.  It stores both arguments without any validation, forwards them to the
engine, and then resizes both stereo buffers to blockSize; each resize
receives the int converted to size_t, so it throws std::length_error when
that count exceeds the vector max_size (every negative blockSize does), and
then no object is constructed.  sfz::Sfizz always owns an engine so handle()
is non-null and the defensive runtime_error branch is dead; the engine-side
defaults are those of the sfizz configuration (64 voices, live mode, sample
quality 2, oscillator quality 1). -/
def Synth.new (sampleRate blockSize : Int) : Except CppError Synth :=
  match vecResize [] (intToSizeT blockSize) with
  | Except.error e => Except.error e
  | Except.ok leftBuffer =>
    match vecResize [] (intToSizeT blockSize) with
    | Except.error e => Except.error e
    | Except.ok rightBuffer =>
      Except.ok
        { regions := []
          engineQueue := []
          engineSampleRate := sampleRate
          engineSamplesPerBlock := blockSize
          numVoices := 64
          freeWheeling := false
          liveSampleQuality := 2
          freewheelingSampleQuality := 2
          liveOscillatorQuality := 1
          freewheelingOscillatorQuality := 1
          leftBuffer_ := leftBuffer
          rightBuffer_ := rightBuffer
          sampleRate_ := sampleRate
          blockSize_ := blockSize }

/-- Synth::getNumRegions, forwarding to the engine region count. -/
def Synth.getNumRegions (st : Synth) : Int :=
  (st.regions.length : Int)

/-- Synth::getRegionData (part_000 lines 63-293): bounds check raising
value_error (not index_error), null region view check raising value_error,
then the snapshot. -/
def Synth.getRegionData (st : Synth) (regionIndex : Int) :
    Except PyError SynthRegionData :=
  if regionIndex < 0 ∨ regionIndex ≥ st.getNumRegions then
    Except.error PyError.valueError
  else
    match st.regions.get? regionIndex.toNat with
    | some r => Except.ok (synthRegionSnapshot r)
    | none => Except.error PyError.valueError

/-- Synth::getRegionsForNote (part_000 lines 297-312): note range check
raising value_error, then the ordered scan over all regions. -/
def Synth.getRegionsForNote (st : Synth) (midiNote : Int) :
    Except PyError (List Nat) :=
  if midiNote < 0 ∨ midiNote > 127 then Except.error PyError.valueError
  else Except.ok (collectRegionsForNote st.regions midiNote)

/-- Synth::noteOn (part_000 lines 318-327): validate note, then velocity
(value_error), then forward the event with its delay to the engine.  The
delay argument is never inspected. -/
def Synth.noteOn (st : Synth) (delay noteNumber velocity : Int) :
    Option PyError × Synth :=
  if noteNumber < 0 ∨ noteNumber > 127 then (some PyError.valueError, st)
  else if velocity < 0 ∨ velocity > 127 then (some PyError.valueError, st)
  else
    (none, { st with
      engineQueue := st.engineQueue ++ [EngineEvent.noteOn delay noteNumber velocity] })

/-- Synth::noteOff (part_000 lines 331-340): same validation as noteOn
(velocity defaults to 0 at the binding level), then forward. -/
def Synth.noteOff (st : Synth) (delay noteNumber velocity : Int) :
    Option PyError × Synth :=
  if noteNumber < 0 ∨ noteNumber > 127 then (some PyError.valueError, st)
  else if velocity < 0 ∨ velocity > 127 then (some PyError.valueError, st)
  else
    (none, { st with
      engineQueue := st.engineQueue ++ [EngineEvent.noteOff delay noteNumber velocity] })

/-- Synth::cc (part_000 lines 360-369): validate ccNumber, then value
(value_error), then forward.  The delay argument is never inspected. -/
def Synth.cc (st : Synth) (delay ccNumber value : Int) :
    Option PyError × Synth :=
  if ccNumber < 0 ∨ ccNumber > 127 then (some PyError.valueError, st)
  else if value < 0 ∨ value > 127 then (some PyError.valueError, st)
  else
    (none, { st with
      engineQueue := st.engineQueue ++ [EngineEvent.cc delay ccNumber value] })

/-- Synth::pitchWheel (part_000 lines 389-395): validate the pitch value
(value_error), then forward.  The delay argument is never inspected. -/
def Synth.pitchWheel (st : Synth) (delay pitch : Int) :
    Option PyError × Synth :=
  if pitch < -8192 ∨ pitch > 8192 then (some PyError.valueError, st)
  else
    (none, { st with
      engineQueue := st.engineQueue ++ [EngineEvent.pitchWheel delay pitch] })

/-- Synth::renderBlock (part_000 lines 400-412): hand the engine an
AudioSpan of size static_cast<size_t>(blockSize_) over the two buffers; the
engine consumes the queued events and writes one sample per span slot on
each channel; the call returns arrays viewing the two buffers in full. -/
def Synth.renderBlock (e : Engine) (st : Synth) :
    Synth × (List Real × List Real) :=
  let n := intToSizeT st.blockSize_
  let newLeft := e.renderLeft n
  let newRight := e.renderRight n
  ({ st with
      leftBuffer_ := newLeft
      rightBuffer_ := newRight
      engineQueue := [] },
   (newLeft, newRight))

/-- Synth::getSampleRate: returns the stored sampleRate_ member. -/
def Synth.getSampleRate (st : Synth) : Int :=
  st.sampleRate_

/-- Synth::setSampleRate (part_000 lines 423-430): reject non-positive input
with value_error before any mutation; otherwise store and forward. -/
def Synth.setSampleRate (st : Synth) (sampleRate : Int) :
    Option PyError × Synth :=
  if sampleRate ≤ 0 then (some PyError.valueError, st)
  else
    (none, { st with
      sampleRate_ := sampleRate
      engineSampleRate := sampleRate })

/-- Synth::getBlockSize: returns the stored blockSize_ member. -/
def Synth.getBlockSize (st : Synth) : Int :=
  st.blockSize_

/-- Synth::setBlockSize (part_000 lines 439-450): reject non-positive input
with value_error before any mutation; otherwise store, forward, and resize
both stereo buffers.  A blockSize that passed the positivity check is a
positive C++ int, hence below 2^31 and below the vector max_size, so these
resizes cannot throw and the success contents are used directly. -/
def Synth.setBlockSize (st : Synth) (blockSize : Int) :
    Option PyError × Synth :=
  if blockSize ≤ 0 then (some PyError.valueError, st)
  else
    (none, { st with
      blockSize_ := blockSize
      engineSamplesPerBlock := blockSize
      leftBuffer_ := vecResizeContent st.leftBuffer_ (intToSizeT blockSize)
      rightBuffer_ := vecResizeContent st.rightBuffer_ (intToSizeT blockSize) })

/-- Synth::setNumVoices (part_000 lines 453-459): reject non-positive input
with value_error; otherwise forward to the engine voice pool. -/
def Synth.setNumVoices (st : Synth) (numVoices : Int) :
    Option PyError × Synth :=
  if numVoices ≤ 0 then (some PyError.valueError, st)
  else (none, { st with numVoices := numVoices })

/-- Synth::isFreeWheeling: reads the SynthConfig freeWheeling flag. -/
def Synth.isFreeWheeling (st : Synth) : Bool :=
  st.freeWheeling

/-- Synth::enableFreeWheeling, forwarding to the engine flag. -/
def Synth.enableFreeWheeling (st : Synth) : Synth :=
  { st with freeWheeling := true }

/-- Synth::disableFreeWheeling, forwarding to the engine flag. -/
def Synth.disableFreeWheeling (st : Synth) : Synth :=
  { st with freeWheeling := false }

/-- SynthConfig::currentSampleQuality, read by Synth::getSampleQuality: the
sample-quality slot of the process mode currently in effect. -/
def Synth.getSampleQuality (st : Synth) : Int :=
  if st.freeWheeling then st.freewheelingSampleQuality else st.liveSampleQuality

/-- SynthConfig::currentOscillatorQuality, read by
Synth::getOscillatorQuality. -/
def Synth.getOscillatorQuality (st : Synth) : Int :=
  if st.freeWheeling then st.freewheelingOscillatorQuality
  else st.liveOscillatorQuality

/-- The external sfz::Synth::setSampleQuality(mode, quality): stores the
quality into the SynthConfig slot of the given process mode. -/
def engineSetSampleQuality (st : Synth) (mode : ProcessMode) (quality : Int) :
    Synth :=
  match mode with
  | ProcessMode.ProcessLive => { st with liveSampleQuality := quality }
  | ProcessMode.ProcessFreewheeling =>
      { st with freewheelingSampleQuality := quality }

/-- The external sfz::Synth::setOscillatorQuality(mode, quality): stores the
quality into the SynthConfig slot of the given process mode. -/
def engineSetOscillatorQuality (st : Synth) (mode : ProcessMode)
    (quality : Int) : Synth :=
  match mode with
  | ProcessMode.ProcessLive => { st with liveOscillatorQuality := quality }
  | ProcessMode.ProcessFreewheeling =>
      { st with freewheelingOscillatorQuality := quality }

/-- Synth::setSampleQuality (part_000 lines 504-513): reject quality outside
0..10 with value_error; otherwise apply to the process mode selected by the
current freewheeling flag. -/
def Synth.setSampleQuality (st : Synth) (quality : Int) :
    Option PyError × Synth :=
  if quality < 0 ∨ quality > 10 then (some PyError.valueError, st)
  else
    (none, engineSetSampleQuality st
      (if st.isFreeWheeling then ProcessMode.ProcessFreewheeling
       else ProcessMode.ProcessLive) quality)

/-- Synth::setOscillatorQuality (part_000 lines 516-525): reject quality
outside 0..3 with value_error; otherwise apply to the process mode selected
by the current freewheeling flag. -/
def Synth.setOscillatorQuality (st : Synth) (quality : Int) :
    Option PyError × Synth :=
  if quality < 0 ∨ quality > 3 then (some PyError.valueError, st)
  else
    (none, engineSetOscillatorQuality st
      (if st.isFreeWheeling then ProcessMode.ProcessFreewheeling
       else ProcessMode.ProcessLive) quality)

/-- The structural invariant of the Synth buffers: both stereo buffers have
length equal to the stored blockSize_, and they fit the vector max_size
under which they were allocated. -/
def bufferInvariant (st : Synth) : Prop :=
  (st.leftBuffer_.length : Int) = st.blockSize_ ∧
  (st.rightBuffer_.length : Int) = st.blockSize_ ∧
  st.leftBuffer_.length ≤ vectorMaxSize

/-- A successful vector resize produces exactly the requested length. -/
theorem vecResizeContent_length (v : List Real) (n : Nat) :
    (vecResizeContent v n).length = n := by
  simp [vecResizeContent]
  omega

/-- vector resize succeeds exactly on counts up to max_size. -/
theorem vecResize_ok (v : List Real) (n : Nat) (h : n ≤ vectorMaxSize) :
    vecResize v n = Except.ok (vecResizeContent v n) := by
  simp only [vecResize]
  rw [if_neg (by omega)]

/-- Inversion of a successful construction: the object a completed
constructor yields carries the constructor arguments and two buffers freshly
resized to size_t(blockSize), which therefore was within max_size. -/
theorem Synth.new_inversion (sr bs : Int) (st0 : Synth)
    (h : Synth.new sr bs = Except.ok st0) :
    st0.leftBuffer_ = vecResizeContent [] (intToSizeT bs) ∧
    st0.rightBuffer_ = vecResizeContent [] (intToSizeT bs) ∧
    st0.sampleRate_ = sr ∧
    st0.blockSize_ = bs ∧
    intToSizeT bs ≤ vectorMaxSize := by
  by_cases hc : vectorMaxSize < intToSizeT bs
  · have he : vecResize [] (intToSizeT bs) = Except.error CppError.lengthError := by
      simp only [vecResize]
      rw [if_pos hc]
    simp only [Synth.new, he] at h
    cases h
  · have hok : vecResize [] (intToSizeT bs) =
        Except.ok (vecResizeContent [] (intToSizeT bs)) :=
      vecResize_ok [] (intToSizeT bs) (by omega)
    simp only [Synth.new, hok] at h
    injection h with h2
    subst h2
    exact ⟨rfl, rfl, rfl, rfl, by omega⟩

/-- The int to size_t conversion is the identity on values representable as
nonnegative 64-bit quantities. -/
theorem intToSizeT_eq_toNat (v : Int) (h1 : 0 ≤ v) (h2 : v < 2 ^ 64) :
    (intToSizeT v : Int) = v := by
  simp only [intToSizeT]
  omega

/-- Membership in the shared region scan: index i is collected exactly when
it is a valid region index whose keyRange contains the note inclusively. -/
theorem mem_collectRegionsForNote (regions : List Region) (n : Int)
    (i : Nat) :
    i ∈ collectRegionsForNote regions n ↔
      ∃ h : i < regions.length,
        (regions.get ⟨i, h⟩).keyRange.getStart ≤ n ∧
          n ≤ (regions.get ⟨i, h⟩).keyRange.getEnd := by
  unfold collectRegionsForNote
  rw [List.mem_filter, List.mem_range]
  constructor
  · rintro ⟨hi, hmatch⟩
    refine ⟨hi, ?_⟩
    rw [List.get?_eq_get hi] at hmatch
    simpa [SfzRange.containsWithEnd] using hmatch
  · rintro ⟨hi, hcont⟩
    refine ⟨hi, ?_⟩
    rw [List.get?_eq_get hi]
    simpa [SfzRange.containsWithEnd] using hcont

/-- The shared region scan emits indices in strictly ascending order. -/
theorem collectRegionsForNote_sorted (regions : List Region) (n : Int) :
    (collectRegionsForNote regions n).Pairwise (· < ·) := by
  unfold collectRegionsForNote
  exact List.Pairwise.filter _ (List.pairwise_lt_range regions.length)

/-- A concrete region used to instantiate theorems: keys 60 to 62,
no loop mode specified. -/
def testRegion1 : Region :=
  { id := 0
    sampleId := "*sine"
    keyRange := { getStart := 60, getEnd := 62 }
    velocityRange := { getStart := 0, getEnd := 127 }
    pitchKeycenter := 60
    pitchKeytrack := 100
    pitchRandom := 0
    pitchVeltrack := 0
    transpose := 0
    pitch := 0
    checkSustain := true
    sustainCC := 64
    loopMode := none
    trigger := Trigger.attack
    offset := 0
    sampleEnd := 44100
    sampleCount := none
    loopRange := { getStart := 0, getEnd := 44100 }
    loopCount := none
    volume := 0
    amplitude := 100
    baseGain := 1
    pan := 0
    width := 100
    position := 0 }

/-- A second concrete region covering the whole keyboard. -/
def testRegion2 : Region :=
  { testRegion1 with id := 1, keyRange := { getStart := 0, getEnd := 127 } }

/-- A concrete Synth with two loaded regions and block size 16: the state a
construction with arguments (48000, 16) yields (its resizes succeed since 16
is far below the vector max_size), after a load populated the two regions. -/
def testSynth : Synth :=
  { regions := [testRegion1, testRegion2]
    engineQueue := []
    engineSampleRate := 48000
    engineSamplesPerBlock := 16
    numVoices := 64
    freeWheeling := false
    liveSampleQuality := 2
    freewheelingSampleQuality := 2
    liveOscillatorQuality := 1
    freewheelingOscillatorQuality := 1
    leftBuffer_ := vecResizeContent [] (intToSizeT 16)
    rightBuffer_ := vecResizeContent [] (intToSizeT 16)
    sampleRate_ := 48000
    blockSize_ := 16 }

/-- A concrete Parser with the same two regions. -/
def testParser : Parser :=
  { handleOk := true, regions := [testRegion1, testRegion2] }

/-- C1: for every loaded instrument and every note n with 0 <= n <= 127,
getRegionsForNote (in the Parser class and in the Synth class alike) returns
exactly the indices of the regions whose keyRange contains n inclusive at
both ends (so a region with keyRange [lo, hi] is excluded for n = lo - 1 and
n = hi + 1), in strictly ascending region-index order. -/
theorem c1_getRegionsForNote_exact (regions : List Region) (n : Int)
    (hn0 : 0 ≤ n) (hn1 : n ≤ 127) :
    (∀ p : Parser, p.handleOk = true → p.regions = regions →
      p.getRegionsForNote n = Except.ok (collectRegionsForNote regions n)) ∧
    (∀ st : Synth, st.regions = regions →
      st.getRegionsForNote n = Except.ok (collectRegionsForNote regions n)) ∧
    (∀ i : Nat, i ∈ collectRegionsForNote regions n ↔
      ∃ h : i < regions.length,
        (regions.get ⟨i, h⟩).keyRange.getStart ≤ n ∧
          n ≤ (regions.get ⟨i, h⟩).keyRange.getEnd) ∧
    (collectRegionsForNote regions n).Pairwise (· < ·) := by
  have hcond : ¬(n < 0 ∨ n > 127) := by omega
  refine ⟨?_, ?_, fun i => mem_collectRegionsForNote regions n i,
    collectRegionsForNote_sorted regions n⟩
  · intro p hp hr
    simp [Parser.getRegionsForNote, hp, hr, hcond]
  · intro st hr
    simp [Synth.getRegionsForNote, hr, hcond]

/-- Witness for C1 at note 60 on the two-region fixture: region 0 spans keys
60..62 and region 1 spans 0..127, so exactly [0, 1] is returned, and note 59
(one below the start of region 0) yields only region 1. -/
theorem c1_getRegionsForNote_exact_witness :
    ((0 : Int) ≤ 60 ∧ (60 : Int) ≤ 127) ∧
    testParser.getRegionsForNote 60 =
      Except.ok (collectRegionsForNote testParser.regions 60) ∧
    testSynth.getRegionsForNote 60 =
      Except.ok (collectRegionsForNote testSynth.regions 60) ∧
    collectRegionsForNote testParser.regions 60 = [0, 1] ∧
    collectRegionsForNote testParser.regions 59 = [1] := by
  refine ⟨⟨by decide, by decide⟩, ?_, ?_, by decide, by decide⟩
  · exact (c1_getRegionsForNote_exact testParser.regions 60 (by decide)
      (by decide)).1 testParser rfl rfl
  · exact ((c1_getRegionsForNote_exact testSynth.regions 60 (by decide)
      (by decide)).2).1 testSynth rfl

/-- C9 counterexample: construction does not succeed for every pair of
integers.  With block_size -1 the buffer resize at part_000 line 43 is asked
for size_t(-1) = 2^64 - 1 elements, beyond the vector max_size, so the
constructor throws std::length_error and no object is constructed. -/
theorem c9_negative_blockSize_throws_cex :
    Synth.new 48000 (-1) = Except.error CppError.lengthError := by
  have he : vecResize [] (intToSizeT (-1)) =
      Except.error CppError.lengthError := by
    simp only [vecResize]
    rw [if_pos (by decide)]
  simp only [Synth.new, he]

/-- C9 amended: the constructor performs no range validation of its
arguments.  For every int sample_rate (zero and negative included) and every
nonnegative int block_size, construction succeeds and getSampleRate and
getBlockSize return exactly the constructor arguments, even values that
setSampleRate and setBlockSize reject with a value_error; a negative
block_size instead makes the buffer resize throw std::length_error, so
construction fails without any validation having run. -/
theorem c9_constructor_no_validation (sampleRate blockSize : Int)
    (hw1 : -2 ^ 31 < blockSize) (hw2 : blockSize < 2 ^ 31) :
    (0 ≤ blockSize →
      ∃ st, Synth.new sampleRate blockSize = Except.ok st ∧
        st.getSampleRate = sampleRate ∧
        st.getBlockSize = blockSize ∧
        (sampleRate ≤ 0 →
          (st.setSampleRate sampleRate).1 = some PyError.valueError) ∧
        (blockSize ≤ 0 →
          (st.setBlockSize blockSize).1 = some PyError.valueError)) ∧
    (blockSize < 0 →
      Synth.new sampleRate blockSize = Except.error CppError.lengthError) := by
  constructor
  · intro h0
    have hok : vecResize [] (intToSizeT blockSize) =
        Except.ok (vecResizeContent [] (intToSizeT blockSize)) :=
      vecResize_ok [] (intToSizeT blockSize)
        (by simp only [intToSizeT, vectorMaxSize]; omega)
    refine ⟨{ regions := []
              engineQueue := []
              engineSampleRate := sampleRate
              engineSamplesPerBlock := blockSize
              numVoices := 64
              freeWheeling := false
              liveSampleQuality := 2
              freewheelingSampleQuality := 2
              liveOscillatorQuality := 1
              freewheelingOscillatorQuality := 1
              leftBuffer_ := vecResizeContent [] (intToSizeT blockSize)
              rightBuffer_ := vecResizeContent [] (intToSizeT blockSize)
              sampleRate_ := sampleRate
              blockSize_ := blockSize }, ?_, rfl, rfl, ?_, ?_⟩
    · simp only [Synth.new, hok]
    · intro h
      simp [Synth.setSampleRate, h]
    · intro h
      simp [Synth.setBlockSize, h]
  · intro hneg
    have he : vecResize [] (intToSizeT blockSize) =
        Except.error CppError.lengthError := by
      simp only [vecResize]
      rw [if_pos (by simp only [intToSizeT, vectorMaxSize]; omega)]
    simp only [Synth.new, he]

/-- Witness for the amended C9 at the pair (0, 0): both values are ones the
setters reject, yet construction succeeds and the getters return them; and
construction with block_size -5 fails with length_error. -/
theorem c9_constructor_no_validation_witness :
    (∃ st, Synth.new 0 0 = Except.ok st ∧
      st.getSampleRate = 0 ∧ st.getBlockSize = 0 ∧
      (st.setSampleRate 0).1 = some PyError.valueError ∧
      (st.setBlockSize 0).1 = some PyError.valueError) ∧
    Synth.new 0 (-5) = Except.error CppError.lengthError := by
  have ha := c9_constructor_no_validation 0 0 (by omega) (by omega)
  have hb := c9_constructor_no_validation 0 (-5) (by omega) (by omega)
  obtain ⟨st, h1, h2, h3, h4, h5⟩ := ha.1 (by omega)
  exact ⟨⟨st, h1, h2, h3, h4 (by omega), h5 (by omega)⟩, hb.2 (by omega)⟩

/-- C4: every event submission validates its value ranges before any
mutation: noteOn and noteOff reject note or velocity outside 0..127, cc
rejects ccNumber or value outside 0..127, pitchWheel rejects values outside
-8192..8192, each with a value_error and the state (event queue included)
returned exactly as it was; in-range arguments are forwarded to the engine
verbatim, delay included. -/
theorem c4_event_validation (st : Synth) (d note vel ccn ccv pw : Int) :
    ((note < 0 ∨ note > 127 ∨ vel < 0 ∨ vel > 127) →
      st.noteOn d note vel = (some PyError.valueError, st) ∧
      st.noteOff d note vel = (some PyError.valueError, st)) ∧
    ((0 ≤ note ∧ note ≤ 127 ∧ 0 ≤ vel ∧ vel ≤ 127) →
      st.noteOn d note vel = (none, { st with
        engineQueue := st.engineQueue ++ [EngineEvent.noteOn d note vel] }) ∧
      st.noteOff d note vel = (none, { st with
        engineQueue := st.engineQueue ++ [EngineEvent.noteOff d note vel] })) ∧
    ((ccn < 0 ∨ ccn > 127 ∨ ccv < 0 ∨ ccv > 127) →
      st.cc d ccn ccv = (some PyError.valueError, st)) ∧
    ((0 ≤ ccn ∧ ccn ≤ 127 ∧ 0 ≤ ccv ∧ ccv ≤ 127) →
      st.cc d ccn ccv = (none, { st with
        engineQueue := st.engineQueue ++ [EngineEvent.cc d ccn ccv] })) ∧
    ((pw < -8192 ∨ pw > 8192) →
      st.pitchWheel d pw = (some PyError.valueError, st)) ∧
    ((-8192 ≤ pw ∧ pw ≤ 8192) →
      st.pitchWheel d pw = (none, { st with
        engineQueue := st.engineQueue ++ [EngineEvent.pitchWheel d pw] })) := by
  refine ⟨?_, ?_, ?_, ?_, ?_, ?_⟩
  · intro h
    constructor <;>
      · simp only [Synth.noteOn, Synth.noteOff]
        by_cases hn : note < 0 ∨ note > 127
        · rw [if_pos hn]
        · rw [if_neg hn, if_pos (by omega)]
  · rintro ⟨h1, h2, h3, h4⟩
    constructor <;>
      · simp only [Synth.noteOn, Synth.noteOff]
        rw [if_neg (by omega), if_neg (by omega)]
  · intro h
    simp only [Synth.cc]
    by_cases hn : ccn < 0 ∨ ccn > 127
    · rw [if_pos hn]
    · rw [if_neg hn, if_pos (by omega)]
  · rintro ⟨h1, h2, h3, h4⟩
    simp only [Synth.cc]
    rw [if_neg (by omega), if_neg (by omega)]
  · intro h
    simp only [Synth.pitchWheel]
    rw [if_pos (by omega)]
  · rintro ⟨h1, h2⟩
    simp only [Synth.pitchWheel]
    rw [if_neg (by omega)]

/-- Witness for C4 on the fixture: note 128 is rejected atomically while the
in-range cc event is accepted and forwarded. -/
theorem c4_event_validation_witness :
    Synth.noteOn testSynth 0 128 100 = (some PyError.valueError, testSynth) ∧
    Synth.cc testSynth 3 7 64 = (none, { testSynth with
      engineQueue := testSynth.engineQueue ++ [EngineEvent.cc 3 7 64] }) := by
  have h := c4_event_validation testSynth 0 128 100 7 64 0
  have h2 := c4_event_validation testSynth 3 128 100 7 64 0
  exact ⟨(h.1 (by omega)).1, h2.2.2.2.1 (by omega)⟩

/-- C2 counterexample: the claim says a delay of blockSize or a negative
delay makes the call fail with OutOfRange and the event is not accepted.  On
the fixture with block size 16, noteOn with delay 16 raises nothing and the
event joins the queue, and so does noteOn with delay -1. -/
theorem c2_delay_not_validated_cex :
    testSynth.getBlockSize = 16 ∧
    (Synth.noteOn testSynth 16 60 100).1 = none ∧
    (Synth.noteOn testSynth 16 60 100).2.engineQueue =
      [EngineEvent.noteOn 16 60 100] ∧
    (Synth.noteOn testSynth (-1) 60 100).1 = none ∧
    (Synth.noteOn testSynth (-1) 60 100).2.engineQueue =
      [EngineEvent.noteOn (-1) 60 100] := by
  refine ⟨rfl, ?_, ?_, ?_, ?_⟩ <;>
    simp [Synth.noteOn, testSynth, Synth.new]

/-- C2 amended: the binding layer performs no validation of the delay
argument.  Every delay, negative or at least blockSize included, is accepted
whenever the value arguments are in range, and the event is forwarded to the
engine with that delay unchanged; no call fails with an OutOfRange error on
account of its delay. -/
theorem c2_delay_forwarded_unchecked (st : Synth) (d note vel ccn ccv pw : Int)
    (hnote : 0 ≤ note ∧ note ≤ 127) (hvel : 0 ≤ vel ∧ vel ≤ 127)
    (hcc : 0 ≤ ccn ∧ ccn ≤ 127) (hccv : 0 ≤ ccv ∧ ccv ≤ 127)
    (hpw : -8192 ≤ pw ∧ pw ≤ 8192) :
    st.noteOn d note vel = (none, { st with
      engineQueue := st.engineQueue ++ [EngineEvent.noteOn d note vel] }) ∧
    st.noteOff d note vel = (none, { st with
      engineQueue := st.engineQueue ++ [EngineEvent.noteOff d note vel] }) ∧
    st.cc d ccn ccv = (none, { st with
      engineQueue := st.engineQueue ++ [EngineEvent.cc d ccn ccv] }) ∧
    st.pitchWheel d pw = (none, { st with
      engineQueue := st.engineQueue ++ [EngineEvent.pitchWheel d pw] }) := by
  obtain ⟨h1, h2⟩ := hnote
  obtain ⟨h3, h4⟩ := hvel
  obtain ⟨h5, h6⟩ := hcc
  obtain ⟨h7, h8⟩ := hccv
  obtain ⟨h9, h10⟩ := hpw
  refine ⟨?_, ?_, ?_, ?_⟩
  · simp only [Synth.noteOn]
    rw [if_neg (by omega), if_neg (by omega)]
  · simp only [Synth.noteOff]
    rw [if_neg (by omega), if_neg (by omega)]
  · simp only [Synth.cc]
    rw [if_neg (by omega), if_neg (by omega)]
  · simp only [Synth.pitchWheel]
    rw [if_neg (by omega)]

/-- Witness for the amended C2 at delay 16 on the block-size-16 fixture. -/
theorem c2_delay_forwarded_unchecked_witness :
    Synth.noteOn testSynth 16 60 100 = (none, { testSynth with
      engineQueue := testSynth.engineQueue ++
        [EngineEvent.noteOn 16 60 100] }) ∧
    Synth.pitchWheel testSynth 16 0 = (none, { testSynth with
      engineQueue := testSynth.engineQueue ++
        [EngineEvent.pitchWheel 16 0] }) := by
  have h := c2_delay_forwarded_unchecked testSynth 16 60 100 7 64 0
    (by omega) (by omega) (by omega) (by omega) (by omega)
  exact ⟨h.1, h.2.2.2⟩

/-- C3 counterexample: on the loaded two-region fixture, the Synth class
rejects region index -1 with a value_error (the InvalidArgument category),
not with an index_error (the OutOfRange category) as the claim requires. -/
theorem c3_synth_valueError_cex :
    Synth.getRegionData testSynth (-1) = Except.error PyError.valueError ∧
    Synth.getRegionData testSynth (-1) ≠ Except.error PyError.indexError := by
  have h1 : Synth.getRegionData testSynth (-1) =
      Except.error PyError.valueError := rfl
  refine ⟨h1, ?_⟩
  rw [h1]
  simp

/-- C3 amended: both classes reject every region index that is negative or
at least numRegions and accept every index in range after a load, but with
different error categories: Parser.getRegionData raises index_error
(OutOfRange) while Synth.getRegionData raises value_error
(InvalidArgument). -/
theorem c3_regionData_bounds (p : Parser) (st : Synth) (i : Int)
    (hp : p.handleOk = true) :
    ((i < 0 ∨ i ≥ (p.regions.length : Int)) →
      p.getRegionData i = Except.error PyError.indexError) ∧
    ((0 ≤ i ∧ i < (p.regions.length : Int)) →
      ∃ d, p.getRegionData i = Except.ok d) ∧
    ((i < 0 ∨ i ≥ (st.regions.length : Int)) →
      st.getRegionData i = Except.error PyError.valueError) ∧
    ((0 ≤ i ∧ i < (st.regions.length : Int)) →
      ∃ d, st.getRegionData i = Except.ok d) := by
  have hhandle : ¬ p.handleOk = false := by simp [hp]
  refine ⟨?_, ?_, ?_, ?_⟩
  · intro h
    simp only [Parser.getRegionData]
    rw [if_neg hhandle, if_pos h]
  · rintro ⟨h1, h2⟩
    simp only [Parser.getRegionData]
    rw [if_neg hhandle, if_neg (by omega)]
    have hlt : i.toNat < p.regions.length := by omega
    rw [List.get?_eq_get hlt]
    exact ⟨_, rfl⟩
  · intro h
    simp only [Synth.getRegionData, Synth.getNumRegions]
    rw [if_pos h]
  · rintro ⟨h1, h2⟩
    simp only [Synth.getRegionData, Synth.getNumRegions]
    rw [if_neg (by omega)]
    have hlt : i.toNat < st.regions.length := by omega
    rw [List.get?_eq_get hlt]
    exact ⟨_, rfl⟩

/-- Witness for the amended C3 on the two-region fixture: index 2 is out of
bounds for both classes (with the two distinct error categories) and index 0
succeeds for both. -/
theorem c3_regionData_bounds_witness :
    testParser.getRegionData 2 = Except.error PyError.indexError ∧
    (∃ d, testParser.getRegionData 0 = Except.ok d) ∧
    testSynth.getRegionData 2 = Except.error PyError.valueError ∧
    (∃ d, testSynth.getRegionData 0 = Except.ok d) := by
  have ha := c3_regionData_bounds testParser testSynth 2 rfl
  have hb := c3_regionData_bounds testParser testSynth 0 rfl
  exact ⟨ha.1 (by right; decide), hb.2.1 (by constructor <;> decide),
    ha.2.2.1 (by right; decide), hb.2.2.2 (by constructor <;> decide)⟩

/-- C6: a region-data snapshot reports loop_mode as one of exactly no_loop,
one_shot, loop_continuous and loop_sustain, and reports no_loop whenever the
region does not specify a loop mode; both snapshot builders take the string
from the same switch, and a valid Synth query returns that snapshot. -/
theorem c6_loop_mode (st : Synth) (i : Int) (hi : 0 ≤ i)
    (hlen : i < (st.regions.length : Int)) :
    (∀ lm, loopModeStr lm = "no_loop" ∨ loopModeStr lm = "one_shot" ∨
      loopModeStr lm = "loop_continuous" ∨
      loopModeStr lm = "loop_sustain") ∧
    loopModeStr none = "no_loop" ∧
    (∀ r : Region,
      (synthRegionSnapshot r).loop_mode = loopModeStr r.loopMode ∧
      (parserRegionSnapshot r).loop_mode = loopModeStr r.loopMode) ∧
    ∃ h : i.toNat < st.regions.length,
      st.getRegionData i =
        Except.ok (synthRegionSnapshot (st.regions.get ⟨i.toNat, h⟩)) := by
  refine ⟨?_, rfl, fun r => ⟨rfl, rfl⟩, ?_⟩
  · intro lm
    rcases lm with _ | lm
    · simp [loopModeStr]
    · cases lm <;> simp [loopModeStr]
  · have hlt : i.toNat < st.regions.length := by omega
    refine ⟨hlt, ?_⟩
    simp only [Synth.getRegionData, Synth.getNumRegions]
    rw [if_neg (by omega), List.get?_eq_get hlt]

/-- Witness for C6 at index 0 of the fixture: testRegion1 specifies no loop
mode, and its snapshot reports no_loop. -/
theorem c6_loop_mode_witness :
    (∃ h : (0 : Int).toNat < testSynth.regions.length,
      testSynth.getRegionData 0 =
        Except.ok (synthRegionSnapshot
          (testSynth.regions.get ⟨(0 : Int).toNat, h⟩))) ∧
    testRegion1.loopMode = none ∧
    (synthRegionSnapshot testRegion1).loop_mode = "no_loop" := by
  have h := c6_loop_mode testSynth 0 (by decide) (by decide)
  exact ⟨h.2.2.2, rfl, rfl⟩

/-- C7: setSampleRate and setBlockSize reject every non-positive input with
a value_error, returning the object state (stored values and forwarded
engine values alike) exactly unchanged, and for positive input they succeed
and update the stored value and the engine. -/
theorem c7_setters_validate (st : Synth) (v : Int) :
    (v ≤ 0 →
      st.setSampleRate v = (some PyError.valueError, st) ∧
      st.setBlockSize v = (some PyError.valueError, st)) ∧
    (0 < v →
      (st.setSampleRate v).1 = none ∧
      (st.setSampleRate v).2.sampleRate_ = v ∧
      (st.setSampleRate v).2.engineSampleRate = v ∧
      (st.setBlockSize v).1 = none ∧
      (st.setBlockSize v).2.blockSize_ = v ∧
      (st.setBlockSize v).2.engineSamplesPerBlock = v) := by
  constructor
  · intro h
    constructor <;> simp [Synth.setSampleRate, Synth.setBlockSize, h]
  · intro h
    have hne : ¬ v ≤ 0 := by omega
    simp [Synth.setSampleRate, Synth.setBlockSize, hne]

/-- Witness for C7 at inputs 0 (rejected) and 44100 (applied). -/
theorem c7_setters_validate_witness :
    (Synth.setSampleRate testSynth 0 = (some PyError.valueError, testSynth) ∧
     Synth.setBlockSize testSynth 0 = (some PyError.valueError, testSynth)) ∧
    (Synth.setSampleRate testSynth 44100).2.sampleRate_ = 44100 ∧
    (Synth.setBlockSize testSynth 44100).2.blockSize_ = 44100 := by
  have ha := c7_setters_validate testSynth 0
  have hb := c7_setters_validate testSynth 44100
  exact ⟨ha.1 (by omega), (hb.2 (by omega)).2.1,
    (hb.2 (by omega)).2.2.2.2.1⟩

/-- C8: setSampleQuality rejects quality outside 0..10 and
setOscillatorQuality rejects quality outside 0..3, each with a value_error
leaving the prior setting intact (the getter still returns the prior value);
in-range values are stored into the slot of the currently selected process
mode, so the matching getter then returns them. -/
theorem c8_quality_validation (st : Synth) (q : Int) :
    ((q < 0 ∨ q > 10) →
      st.setSampleQuality q = (some PyError.valueError, st) ∧
      (st.setSampleQuality q).2.getSampleQuality = st.getSampleQuality) ∧
    ((q < 0 ∨ q > 3) →
      st.setOscillatorQuality q = (some PyError.valueError, st) ∧
      (st.setOscillatorQuality q).2.getOscillatorQuality =
        st.getOscillatorQuality) ∧
    (0 ≤ q → q ≤ 10 →
      (st.setSampleQuality q).1 = none ∧
      (st.setSampleQuality q).2 = engineSetSampleQuality st
        (if st.isFreeWheeling then ProcessMode.ProcessFreewheeling
         else ProcessMode.ProcessLive) q ∧
      (st.setSampleQuality q).2.getSampleQuality = q) ∧
    (0 ≤ q → q ≤ 3 →
      (st.setOscillatorQuality q).1 = none ∧
      (st.setOscillatorQuality q).2 = engineSetOscillatorQuality st
        (if st.isFreeWheeling then ProcessMode.ProcessFreewheeling
         else ProcessMode.ProcessLive) q ∧
      (st.setOscillatorQuality q).2.getOscillatorQuality = q) := by
  refine ⟨?_, ?_, ?_, ?_⟩
  · intro h
    have he : st.setSampleQuality q = (some PyError.valueError, st) := by
      simp only [Synth.setSampleQuality]
      rw [if_pos h]
    exact ⟨he, by rw [he]⟩
  · intro h
    have he : st.setOscillatorQuality q = (some PyError.valueError, st) := by
      simp only [Synth.setOscillatorQuality]
      rw [if_pos h]
    exact ⟨he, by rw [he]⟩
  · intro h1 h2
    have he : st.setSampleQuality q = (none, engineSetSampleQuality st
        (if st.isFreeWheeling then ProcessMode.ProcessFreewheeling
         else ProcessMode.ProcessLive) q) := by
      simp only [Synth.setSampleQuality]
      rw [if_neg (by omega)]
    refine ⟨by rw [he], by rw [he], ?_⟩
    rw [he]
    cases hfw : st.freeWheeling <;>
      simp [Synth.isFreeWheeling, engineSetSampleQuality,
        Synth.getSampleQuality, hfw]
  · intro h1 h2
    have he : st.setOscillatorQuality q = (none, engineSetOscillatorQuality st
        (if st.isFreeWheeling then ProcessMode.ProcessFreewheeling
         else ProcessMode.ProcessLive) q) := by
      simp only [Synth.setOscillatorQuality]
      rw [if_neg (by omega)]
    refine ⟨by rw [he], by rw [he], ?_⟩
    rw [he]
    cases hfw : st.freeWheeling <;>
      simp [Synth.isFreeWheeling, engineSetOscillatorQuality,
        Synth.getOscillatorQuality, hfw]

/-- Witness for C8 at quality 11 (rejected, prior value 2 kept) and quality
7 (applied to the live slot of the fixture). -/
theorem c8_quality_validation_witness :
    Synth.setSampleQuality testSynth 11 = (some PyError.valueError, testSynth) ∧
    (Synth.setSampleQuality testSynth 11).2.getSampleQuality =
      testSynth.getSampleQuality ∧
    (Synth.setSampleQuality testSynth 7).2.getSampleQuality = 7 ∧
    (Synth.setOscillatorQuality testSynth 4).2.getOscillatorQuality =
      testSynth.getOscillatorQuality ∧
    (Synth.setOscillatorQuality testSynth 3).2.getOscillatorQuality = 3 := by
  have ha := c8_quality_validation testSynth 11
  have hb := c8_quality_validation testSynth 7
  have hc := c8_quality_validation testSynth 4
  have hd := c8_quality_validation testSynth 3
  exact ⟨(ha.1 (by omega)).1, (ha.1 (by omega)).2,
    (hb.2.2.1 (by omega) (by omega)).2.2,
    (hc.2.1 (by omega)).2,
    (hd.2.2.2 (by omega) (by omega)).2.2⟩

/-- C5: for every positive int b, setBlockSize b succeeds, getBlockSize then
returns b, and every renderBlock call made while the stored block size is b
(in particular every call after that setBlockSize) returns a left and a
right channel of length exactly b. -/
theorem c5_blockSize_roundtrip (st : Synth) (b : Int) (hb : 0 < b)
    (hb2 : b < 2 ^ 31) :
    (st.setBlockSize b).1 = none ∧
    (st.setBlockSize b).2.getBlockSize = b ∧
    (st.setBlockSize b).2.blockSize_ = b ∧
    (∀ e : Engine, ∀ st2 : Synth, st2.blockSize_ = b →
      ((st2.renderBlock e).2.1.length : Int) = b ∧
      ((st2.renderBlock e).2.2.length : Int) = b ∧
      (st2.renderBlock e).1.blockSize_ = b) := by
  have hset : st.setBlockSize b = (none, { st with
      blockSize_ := b
      engineSamplesPerBlock := b
      leftBuffer_ := vecResizeContent st.leftBuffer_ (intToSizeT b)
      rightBuffer_ := vecResizeContent st.rightBuffer_ (intToSizeT b) }) := by
    simp only [Synth.setBlockSize]
    rw [if_neg (by omega)]
  refine ⟨by rw [hset], by rw [hset]; rfl, by rw [hset], ?_⟩
  intro e st2 h2
  have hn : (intToSizeT b : Int) = b :=
    intToSizeT_eq_toNat b (by omega) (by omega)
  refine ⟨?_, ?_, h2⟩
  · show ((e.renderLeft (intToSizeT st2.blockSize_)).length : Int) = b
    rw [e.renderLeft_length, h2, hn]
  · show ((e.renderRight (intToSizeT st2.blockSize_)).length : Int) = b
    rw [e.renderRight_length, h2, hn]

/-- Witness for C5 at block size 512 with the silent engine. -/
theorem c5_blockSize_roundtrip_witness :
    (Synth.setBlockSize testSynth 512).1 = none ∧
    (Synth.setBlockSize testSynth 512).2.getBlockSize = 512 ∧
    (((Synth.setBlockSize testSynth 512).2.renderBlock
        zeroEngine).2.1.length : Int) = 512 ∧
    (((Synth.setBlockSize testSynth 512).2.renderBlock
        zeroEngine).2.2.length : Int) = 512 := by
  have h := c5_blockSize_roundtrip testSynth 512 (by omega) (by omega)
  have hr := h.2.2.2 zeroEngine (Synth.setBlockSize testSynth 512).2 h.2.2.1
  exact ⟨h.1, h.2.1, hr.1, hr.2.1⟩

/-- C10: the invariant that the left and right channel buffers have equal
length, equal to the stored blockSize_, holds of every constructed Synth and
is preserved by every operation: a constructor call that completes
establishes it (a completed resize bounds the requested count by max_size,
which forces the stored int block size to be the nonnegative count itself),
setBlockSize re-establishes it when it succeeds, no other operation resizes
the buffers, and renderBlock always returns two channels of equal length. -/
theorem c10_bufferInvariant_preserved (st st0 : Synth) (sr bs d x y q : Int)
    (e : Engine) (hbs1 : -2 ^ 31 < bs) (hbs2 : bs < 2 ^ 31) (hq : q < 2 ^ 31)
    (hnew : Synth.new sr bs = Except.ok st0) (h : bufferInvariant st) :
    bufferInvariant st0 ∧
    st.leftBuffer_.length = st.rightBuffer_.length ∧
    (st.leftBuffer_.length : Int) = st.blockSize_ ∧
    bufferInvariant (st.noteOn d x y).2 ∧
    bufferInvariant (st.noteOff d x y).2 ∧
    bufferInvariant (st.cc d x y).2 ∧
    bufferInvariant (st.pitchWheel d x).2 ∧
    bufferInvariant (st.setSampleRate q).2 ∧
    bufferInvariant (st.setBlockSize q).2 ∧
    bufferInvariant (st.setNumVoices q).2 ∧
    bufferInvariant st.enableFreeWheeling ∧
    bufferInvariant st.disableFreeWheeling ∧
    bufferInvariant (st.setSampleQuality q).2 ∧
    bufferInvariant (st.setOscillatorQuality q).2 ∧
    bufferInvariant (st.renderBlock e).1 ∧
    (st.renderBlock e).2.1.length = (st.renderBlock e).2.2.length := by
  obtain ⟨hL, hR, hM⟩ := h
  obtain ⟨hnL, hnR, -, hnB, hnM⟩ := Synth.new_inversion sr bs st0 hnew
  have hMn : st.leftBuffer_.length ≤ 2 ^ 61 - 1 := hM
  have hbs0 : (intToSizeT bs : Int) = bs := by
    have hnMn : intToSizeT bs ≤ 2 ^ 61 - 1 := hnM
    simp only [intToSizeT] at hnMn ⊢
    omega
  have hrn1 : (intToSizeT st.blockSize_ : Int) = st.blockSize_ := by
    simp only [intToSizeT]
    omega
  have hrn2 : intToSizeT st.blockSize_ ≤ vectorMaxSize := by
    show intToSizeT st.blockSize_ ≤ 2 ^ 61 - 1
    simp only [intToSizeT]
    omega
  refine ⟨?_, by omega, hL, ?_, ?_, ?_, ?_, ?_, ?_, ?_, ⟨hL, hR, hM⟩,
    ⟨hL, hR, hM⟩, ?_, ?_, ?_, ?_⟩
  · refine ⟨?_, ?_, ?_⟩
    · rw [hnL, hnB, vecResizeContent_length]
      exact hbs0
    · rw [hnR, hnB, vecResizeContent_length]
      exact hbs0
    · rw [hnL, vecResizeContent_length]
      exact hnM
  · simp only [Synth.noteOn]
    split_ifs <;> exact ⟨hL, hR, hM⟩
  · simp only [Synth.noteOff]
    split_ifs <;> exact ⟨hL, hR, hM⟩
  · simp only [Synth.cc]
    split_ifs <;> exact ⟨hL, hR, hM⟩
  · simp only [Synth.pitchWheel]
    split_ifs <;> exact ⟨hL, hR, hM⟩
  · simp only [Synth.setSampleRate]
    split_ifs <;> exact ⟨hL, hR, hM⟩
  · simp only [Synth.setBlockSize]
    split_ifs with hc
    · exact ⟨hL, hR, hM⟩
    · have hq0 : (intToSizeT q : Int) = q ∧ intToSizeT q ≤ vectorMaxSize := by
        simp only [intToSizeT, vectorMaxSize]
        omega
      refine ⟨?_, ?_, ?_⟩ <;> rw [vecResizeContent_length]
      exacts [hq0.1, hq0.1, hq0.2]
  · simp only [Synth.setNumVoices]
    split_ifs <;> exact ⟨hL, hR, hM⟩
  · simp only [Synth.setSampleQuality]
    split_ifs <;> exact ⟨hL, hR, hM⟩
  · simp only [Synth.setOscillatorQuality]
    split_ifs <;> exact ⟨hL, hR, hM⟩
  · refine ⟨?_, ?_, ?_⟩
    · show ((e.renderLeft (intToSizeT st.blockSize_)).length : Int) =
        st.blockSize_
      rw [e.renderLeft_length]
      exact hrn1
    · show ((e.renderRight (intToSizeT st.blockSize_)).length : Int) =
        st.blockSize_
      rw [e.renderRight_length]
      exact hrn1
    · show (e.renderLeft (intToSizeT st.blockSize_)).length ≤ vectorMaxSize
      rw [e.renderLeft_length]
      exact hrn2
  · show (e.renderLeft (intToSizeT st.blockSize_)).length =
      (e.renderRight (intToSizeT st.blockSize_)).length
    rw [e.renderLeft_length, e.renderRight_length]

/-- Witness for C10 on the block-size-16 fixture with the silent engine. -/
theorem c10_bufferInvariant_preserved_witness :
    bufferInvariant testSynth ∧
    bufferInvariant (Synth.noteOn testSynth 0 60 100).2 ∧
    bufferInvariant (Synth.renderBlock zeroEngine testSynth).1 ∧
    (Synth.renderBlock zeroEngine testSynth).2.1.length =
      (Synth.renderBlock zeroEngine testSynth).2.2.length := by
  have h16 : intToSizeT 16 = 16 := by decide
  have hinv : bufferInvariant testSynth := by
    refine ⟨?_, ?_, ?_⟩
    · show ((vecResizeContent [] (intToSizeT 16)).length : Int) = 16
      rw [vecResizeContent_length, h16]
      decide
    · show ((vecResizeContent [] (intToSizeT 16)).length : Int) = 16
      rw [vecResizeContent_length, h16]
      decide
    · show (vecResizeContent [] (intToSizeT 16)).length ≤ vectorMaxSize
      rw [vecResizeContent_length, h16]
      decide
  have hnew : Synth.new 48000 16 =
      Except.ok { testSynth with regions := [] } := by
    have hok : vecResize [] (intToSizeT 16) =
        Except.ok (vecResizeContent [] (intToSizeT 16)) :=
      vecResize_ok [] (intToSizeT 16) (by decide)
    simp only [Synth.new, hok]
    rfl
  have h := c10_bufferInvariant_preserved testSynth
    { testSynth with regions := [] } 48000 16 0 60 100 5 zeroEngine
    (by omega) (by omega) (by omega) hnew hinv
  obtain ⟨-, -, -, h4, -, -, -, -, -, -, -, -, -, -, h15, h16b⟩ := h
  exact ⟨hinv, h4, h15, h16b⟩

end Pysfizz
